import Mathlib

/-!
Shallow embedding of the state CRUD API (`src/routes/state.js` plus the state
controller bundled in the same source file).

The controller is a set of five Express handlers over a Prisma `states` table
(columns `id`, `stateName`, `createdAt`, `updatedAt`).  The embedding models:

* JavaScript `parseInt` (radix 10: leading whitespace, an optional sign, then
  the maximal digit prefix; `NaN` is `none`);
* the Prisma client as a pure in-memory table (the persistence layer is an
  external collaborator, treated as a black box that executes its documented
  CRUD calls; `update`/`delete` on a missing row raise the known request error
  P2025);
* thrown JavaScript errors as the inductive `HandlerErr` (http-errors values
  carry `status`/`expose`/`message`; Zod errors carry issues and have neither
  `status` nor `expose`; Prisma known request errors carry `code` and
  `meta.target`);
* `asyncHandler`'s catch block as `handleError`, following the source's branch
  order exactly;
* request bodies as records of optional fields: a JSON body either carries
  `stateName` or it does not (JSON cannot carry `undefined`, and Zod strips
  unknown keys, so the parsed object has `stateName` exactly when the input
  does).

Timestamps are naturals supplied explicitly (`now`); Express path parameters
and query parameters are strings (query parameters optional).
-/

deriving instance DecidableEq for Except

namespace StateApi

/-- One row of the `states` table: the columns selected everywhere in the
source (`id`, `stateName`, `createdAt`, `updatedAt`). -/
structure StateRec where
  id : Int
  stateName : String
  createdAt : Nat
  updatedAt : Nat
deriving Repr, DecidableEq

/-- The in-memory model of the Prisma `states` table: current rows plus the
autoincrement counter used by `create`. -/
structure Db where
  rows : List StateRec
  nextId : Int
deriving Repr, DecidableEq

/-- JS whitespace skipped by `parseInt`. -/
def isJsSpace (c : Char) : Bool :=
  c == ' ' || c == '\t' || c == '\n' || c == '\r'

/-- Fold a digit list into a natural number. -/
def digitsToNat (ds : List Char) : Nat :=
  ds.foldl (fun a c => a * 10 + (c.toNat - 48)) 0

/-- Parse the maximal digit prefix; `none` models `NaN`. -/
def jsParseDigits (sign : Int) (cs : List Char) : Option Int :=
  let ds := cs.takeWhile Char.isDigit
  if ds.isEmpty then none else some (sign * (digitsToNat ds : Int))

/-- Model of JavaScript `parseInt(s)` at radix 10: skip leading whitespace,
read an optional sign, then the maximal digit prefix; no digits means `NaN`
(`none`).  The legacy hexadecimal `0x` form is not modelled; no identifier or
query value considered by the specification uses it. -/
def jsParseInt (s : String) : Option Int :=
  match s.data.dropWhile isJsSpace with
  | '-' :: rest => jsParseDigits (-1) rest
  | '+' :: rest => jsParseDigits 1 rest
  | rest => jsParseDigits 1 rest

/-- `parseInt` applied to a possibly-absent query value: `parseInt(undefined)`
is `NaN`. -/
def jsParseIntOpt : Option String → Option Int
  | none => none
  | some s => jsParseInt s

/-- Model of `parseInt(x) || d`: both `NaN` and `0` are falsy, so they fall
back to the default. -/
def intOrDefault : Option Int → Int → Int
  | none, d => d
  | some 0, d => d
  | some n, _ => n

/-- `meta.target` of a Prisma known request error: an array of column names or
a single string, mirroring the source's `Array.isArray` dispatch. -/
inductive JsTarget where
  | arr (cols : List String)
  | str (col : String)
deriving Repr, DecidableEq

/-- Thrown JavaScript errors reaching `asyncHandler`'s catch block.

* `http`: an http-errors value from `createError(status, msg)` (its `expose`
  flag is true for 4xx statuses);
* `zod`: a raw `ZodError` from `schema.parseAsync` (it has no `status` and no
  `expose` property);
* `prismaValidation`: a `PrismaClientValidationError`;
* `prismaKnown`: a `PrismaClientKnownRequestError` with its `code` and
  optional `meta.target`;
* `other`: any other unexpected failure. -/
inductive HandlerErr where
  | http (status : Nat) (msg : String) (expose : Bool)
  | zod (issues : List (String × String))
  | prismaValidation (msg : String)
  | prismaKnown (code : String) (target : Option JsTarget)
  | other
deriving Repr, DecidableEq

/-- Error payloads produced by `asyncHandler`:
a plain message object or the field-keyed unique-constraint object. -/
inductive ErrBody where
  | message (msg : String)
  | unique (field : String) (msg : String)
deriving Repr, DecidableEq

/-- The HTTP response of an endpoint: a success status plus body, or an error
status plus error payload. -/
inductive ApiResult (α : Type) where
  | ok (status : Nat) (body : α)
  | err (status : Nat) (body : ErrBody)
deriving Repr, DecidableEq

/-- `Array.isArray(target) ? target[0] : target`; indexing an empty JS array
yields `undefined`, which interpolates as the string "undefined". -/
def targetField : JsTarget → String
  | JsTarget.arr cols => cols.headD "undefined"
  | JsTarget.str col => col

/-- JS truthiness of `err.meta?.target`: an array is an object and hence
truthy even when empty, while a string is truthy exactly when nonempty. -/
def targetTruthy : JsTarget → Bool
  | JsTarget.arr _ => true
  | JsTarget.str col => col != ""

/-- `asyncHandler`'s catch block, branch by branch:
1. errors with `status === 400 && expose` answer 400 with
   `err.errors` if present, else a message object (the handlers' own
   `createError(400, msg)` values carry no `errors`, so the message object);
2. `PrismaClientValidationError` answers 400 with the message;
3. a `PrismaClientKnownRequestError` with `code === "P2002"` and a truthy
   `meta.target` (an empty array is truthy, an empty string is not) answers
   400 with the field-keyed "already exists" object;
4. everything else falls through to 500 "Internal Server Error". -/
def handleError : HandlerErr → Nat × ErrBody
  | HandlerErr.http status msg expose =>
      if status = 400 ∧ expose = true then (400, ErrBody.message msg)
      else (500, ErrBody.message "Internal Server Error")
  | HandlerErr.prismaValidation msg => (400, ErrBody.message msg)
  | HandlerErr.prismaKnown code target =>
      match target with
      | some t =>
          if code = "P2002" ∧ targetTruthy t = true then
            (400, ErrBody.unique (targetField t)
              ("A record with that " ++ targetField t ++ " already exists."))
          else (500, ErrBody.message "Internal Server Error")
      | none => (500, ErrBody.message "Internal Server Error")
  | HandlerErr.zod _ => (500, ErrBody.message "Internal Server Error")
  | HandlerErr.other => (500, ErrBody.message "Internal Server Error")

/-- Wrap a handler outcome: success keeps the handler's status, a thrown error
is classified by `handleError`. -/
def runHandler {α : Type} (okStatus : Nat) (r : Except HandlerErr α) : ApiResult α :=
  match r with
  | Except.ok b => ApiResult.ok okStatus b
  | Except.error e => ApiResult.err (handleError e).1 (handleError e).2

/-- Whether one character list starts with another. -/
def charsStartWith : List Char → List Char → Bool
  | [], _ => true
  | _ :: _, [] => false
  | a :: as, b :: bs => a == b && charsStartWith as bs

/-- Whether `pat` occurs contiguously inside the second list. -/
def charsContain (pat : List Char) : List Char → Bool
  | [] => pat.isEmpty
  | c :: cs => charsStartWith pat (c :: cs) || charsContain pat cs

/-- Prisma's `stateName: { contains: search }` filter on one string:
case-sensitive substring containment (the store's default collation is taken
as case sensitive, per the specification's own caveat). -/
def strContains (s pat : String) : Bool :=
  charsContain pat.data s.data

/-- The `where` object of the list handler: a truthy (nonempty) `search`
filters by containment, otherwise no filter. -/
def whereFilter (search : String) (r : StateRec) : Bool :=
  if search = "" then true else strContains r.stateName search

/-- Ascending comparison on one column of the table.  `prismaFindMany`
rejects a field Prisma does not know before sorting, so the final catch-all
branch is unreachable on executed queries. -/
def fieldLeAsc (field : String) (a b : StateRec) : Bool :=
  if field = "id" then decide (a.id ≤ b.id)
  else if field = "stateName" then decide (a.stateName ≤ b.stateName)
  else if field = "createdAt" then decide (a.createdAt ≤ b.createdAt)
  else if field = "updatedAt" then decide (a.updatedAt ≤ b.updatedAt)
  else true

/-- `orderBy: { [field]: ord }`: descending order flips the comparison.
`prismaFindMany` rejects any direction other than "asc"/"desc" before
sorting, so the else branch is exactly "asc" on executed queries. -/
def fieldLe (field ord : String) (a b : StateRec) : Bool :=
  if ord = "desc" then fieldLeAsc field b a else fieldLeAsc field a b

/-- Insert one record into a sorted list (stable insertion sort step). -/
def insertSorted (le : StateRec → StateRec → Bool) (x : StateRec) :
    List StateRec → List StateRec
  | [] => [x]
  | y :: ys => if le x y then x :: y :: ys else y :: insertSorted le x ys

/-- Stable insertion sort modelling the store's `orderBy`. -/
def sortRecords (le : StateRec → StateRec → Bool) : List StateRec → List StateRec
  | [] => []
  | x :: xs => insertSorted le x (sortRecords le xs)

/-- `prisma.states.findUnique({ where: { id } })`. -/
def findUnique (db : Db) (i : Int) : Option StateRec :=
  db.rows.find? (fun r => r.id == i)

/-- `prisma.states.count({ where })`. -/
def countWhere (db : Db) (search : String) : Nat :=
  (db.rows.filter (whereFilter search)).length

/-- The result rows of `prisma.states.findMany({ where, skip, take, orderBy,
select })` once the client has accepted the `orderBy` argument. -/
def findMany (db : Db) (search field ord : String) (skip take : Nat) :
    List StateRec :=
  (((sortRecords (fieldLe field ord) (db.rows.filter (whereFilter search))).drop
      skip).take take)

/-- The columns of the `states` table that `orderBy` may name. -/
def knownColumn (field : String) : Bool :=
  field == "id" || field == "stateName" || field == "createdAt" ||
    field == "updatedAt"

/-- The sort directions Prisma accepts. -/
def validSortOrder (ord : String) : Bool :=
  ord == "asc" || ord == "desc"

/-- Stands for the message of the `PrismaClientValidationError` the client
raises for a bad `orderBy` argument. -/
def prismaOrderByMsg : String :=
  "Invalid prisma.states.findMany() invocation: unknown orderBy argument"

/-- The full `prisma.states.findMany` call: an `orderBy` naming an unknown
column, or a direction other than asc/desc, raises a
`PrismaClientValidationError`; otherwise the sorted page slice is returned. -/
def prismaFindMany (db : Db) (search field ord : String) (skip take : Nat) :
    Except HandlerErr (List StateRec) :=
  if knownColumn field && validSortOrder ord then
    Except.ok (findMany db search field ord skip take)
  else Except.error (HandlerErr.prismaValidation prismaOrderByMsg)

/-- `prisma.states.create({ data: { stateName } })`: the store assigns the next
id and sets both timestamps. -/
def prismaCreate (db : Db) (name : String) (now : Nat) : StateRec × Db :=
  let r : StateRec :=
    { id := db.nextId, stateName := name, createdAt := now, updatedAt := now }
  (r, { rows := db.rows ++ [r], nextId := db.nextId + 1 })

/-- The update object actually sent to the store: the validated fields that
are present (spreading `validatedData` and deleting keys whose value is
`undefined` leaves exactly the present fields, since Zod's parsed output
carries `stateName` exactly when the body does). -/
def toDataObject : Option String → List (String × String)
  | some s => [("stateName", s)]
  | none => []

/-- `prisma.states.update({ where: { id }, data })`: a missing row raises the
known request error P2025; otherwise the present fields are applied and the
store refreshes `updatedAt`. -/
def prismaUpdate (db : Db) (i : Int) (data : List (String × String)) (now : Nat) :
    Except HandlerErr (StateRec × Db) :=
  match findUnique db i with
  | none => Except.error (HandlerErr.prismaKnown "P2025" none)
  | some r =>
      Except.ok
        ({ r with stateName := (data.lookup "stateName").getD r.stateName,
                  updatedAt := now },
         { db with
            rows := db.rows.map (fun x =>
              if x.id == i then
                { x with stateName := (data.lookup "stateName").getD x.stateName,
                         updatedAt := now }
              else x) })

/-- `prisma.states.delete({ where: { id } })`: a missing row raises the known
request error P2025. -/
def prismaDelete (db : Db) (i : Int) : Except HandlerErr Db :=
  match findUnique db i with
  | none => Except.error (HandlerErr.prismaKnown "P2025" none)
  | some _ => Except.ok { db with rows := db.rows.filter (fun r => r.id != i) }

/-- The query string of the list endpoint; every parameter may be absent. -/
structure ListQuery where
  page : Option String
  limit : Option String
  search : Option String
  sortBy : Option String
  sortOrder : Option String
deriving Repr, DecidableEq

/-- `const page = Math.max(1, parseInt(req.query.page) || 1)`. -/
def effectivePage (q : ListQuery) : Int :=
  max 1 (intOrDefault (jsParseIntOpt q.page) 1)

/-- `const limit = Math.max(1, parseInt(req.query.limit) || 10)`. -/
def effectiveLimit (q : ListQuery) : Int :=
  max 1 (intOrDefault (jsParseIntOpt q.limit) 10)

/-- `const skip = (page - 1) * limit`. -/
def skipOf (q : ListQuery) : Int :=
  (effectivePage q - 1) * effectiveLimit q

/-- `const { search = "", sortBy = "stateName", sortOrder = "asc" } = req.query`. -/
def searchOf (q : ListQuery) : String := q.search.getD ""

def sortByOf (q : ListQuery) : String := q.sortBy.getD "stateName"

def sortOrderOf (q : ListQuery) : String := q.sortOrder.getD "asc"

/-- `const mappedSortBy = sortBy === "name" ? "stateName" : sortBy`. -/
def mappedSortBy (q : ListQuery) : String :=
  if sortByOf q = "name" then "stateName" else sortByOf q

/-- `Math.ceil(total / limit)` for a positive `limit`. -/
def jsCeilDiv (total limit : Nat) : Nat :=
  (total + limit - 1) / limit

/-- The JSON body of the list endpoint's 200 response. -/
structure ListResult where
  states : List StateRec
  page : Int
  totalPages : Nat
  totalStates : Nat
deriving Repr, DecidableEq

/-- The response computed by the `getStates` handler once the store has
accepted the query.  The handler itself rejects nothing: page and limit are
coerced and clamped, and every other parameter is passed through to the
store. -/
def getStates (db : Db) (q : ListQuery) : ListResult :=
  let page := effectivePage q
  let limit := effectiveLimit q
  let states :=
    findMany db (searchOf q) (mappedSortBy q) (sortOrderOf q)
      (skipOf q).toNat limit.toNat
  let total := countWhere db (searchOf q)
  { states := states, page := page,
    totalPages := jsCeilDiv total limit.toNat, totalStates := total }

/-- The `getStates` handler body through the fallible store call: the
`Promise.all` rejects when the client rejects the `orderBy` argument, and the
thrown error reaches `asyncHandler`; otherwise the response record is
assembled from the returned rows and the filter count. -/
def getStatesHandler (db : Db) (q : ListQuery) : Except HandlerErr ListResult :=
  match prismaFindMany db (searchOf q) (mappedSortBy q) (sortOrderOf q)
      (skipOf q).toNat (effectiveLimit q).toNat with
  | Except.error e => Except.error e
  | Except.ok states =>
      Except.ok
        { states := states, page := effectivePage q,
          totalPages := jsCeilDiv (countWhere db (searchOf q)) (effectiveLimit q).toNat,
          totalStates := countWhere db (searchOf q) }

/-- `GET /states` through `asyncHandler` (`res.json` answers 200). -/
def getStatesApi (db : Db) (q : ListQuery) : ApiResult ListResult :=
  runHandler 200 (getStatesHandler db q)

/-- The `getState` handler: `parseInt` the path id, reject falsy ids (NaN or
0) with an exposed 400, look the record up, 404 when absent, else answer the
selected columns. -/
def getState (db : Db) (idParam : String) : Except HandlerErr StateRec :=
  match jsParseInt idParam with
  | none => Except.error (HandlerErr.http 400 "Invalid state ID" true)
  | some i =>
      if i = 0 then Except.error (HandlerErr.http 400 "Invalid state ID" true)
      else
        match findUnique db i with
        | none => Except.error (HandlerErr.http 404 "State not found" true)
        | some r => Except.ok r

/-- `GET /states/:id` through `asyncHandler`. -/
def getStateApi (db : Db) (idParam : String) : ApiResult StateRec :=
  runHandler 200 (getState db idParam)

/-- A JSON request body for create/update: it carries `stateName` or not. -/
structure Body where
  stateName : Option String
deriving Repr, DecidableEq

/-- The create schema `z.object({ stateName: z.string().min(1).max(255) })`:
a missing or out-of-bounds `stateName` raises a raw `ZodError`. -/
def zodCreate (b : Body) : Except HandlerErr String :=
  match b.stateName with
  | none => Except.error (HandlerErr.zod [("stateName", "Required")])
  | some s =>
      if s.length < 1 then
        Except.error (HandlerErr.zod [("stateName", "State name is required")])
      else if 255 < s.length then
        Except.error
          (HandlerErr.zod [("stateName", "String must contain at most 255 character(s)")])
      else Except.ok s

/-- The update schema: `stateName` optional with the same bounds, refined so
that the parsed object keeps at least one key.  With `stateName` the only
schema key, the refinement fails exactly when the body carries no valid
`stateName` key at all. -/
def zodUpdate (b : Body) : Except HandlerErr (Option String) :=
  match b.stateName with
  | some s =>
      if s.length < 1 then
        Except.error
          (HandlerErr.zod [("stateName", "String must contain at least 1 character(s)")])
      else if 255 < s.length then
        Except.error
          (HandlerErr.zod [("stateName", "String must contain at most 255 character(s)")])
      else Except.ok (some s)
  | none => Except.error (HandlerErr.zod [("", "At least one field is required")])

/-- The `createState` handler: validate, then insert. -/
def createState (db : Db) (b : Body) (now : Nat) :
    Except HandlerErr (StateRec × Db) :=
  match zodCreate b with
  | Except.error e => Except.error e
  | Except.ok name => Except.ok (prismaCreate db name now)

/-- `POST /states` through `asyncHandler` (`res.status(201)`); an error leaves
the table untouched. -/
def createStateApi (db : Db) (b : Body) (now : Nat) : ApiResult StateRec × Db :=
  match createState db b now with
  | Except.ok (r, db2) => (ApiResult.ok 201 r, db2)
  | Except.error e => (ApiResult.err (handleError e).1 (handleError e).2, db)

/-- The `updateState` handler, in source order: reject falsy ids, validate the
body, look the record up (404 when absent), strip absent fields, update. -/
def updateState (db : Db) (idParam : String) (b : Body) (now : Nat) :
    Except HandlerErr (StateRec × Db) :=
  match jsParseInt idParam with
  | none => Except.error (HandlerErr.http 400 "Invalid state ID" true)
  | some i =>
      if i = 0 then Except.error (HandlerErr.http 400 "Invalid state ID" true)
      else
        match zodUpdate b with
        | Except.error e => Except.error e
        | Except.ok validatedData =>
            match findUnique db i with
            | none => Except.error (HandlerErr.http 404 "State not found" true)
            | some _ => prismaUpdate db i (toDataObject validatedData) now

/-- `PUT /states/:id` through `asyncHandler`; an error leaves the table
untouched. -/
def updateStateApi (db : Db) (idParam : String) (b : Body) (now : Nat) :
    ApiResult StateRec × Db :=
  match updateState db idParam b now with
  | Except.ok (r, db2) => (ApiResult.ok 200 r, db2)
  | Except.error e => (ApiResult.err (handleError e).1 (handleError e).2, db)

/-- The `deleteState` handler: reject falsy ids, check existence (404 when
absent) before issuing the store's delete. -/
def deleteState (db : Db) (idParam : String) :
    Except HandlerErr (String × Db) :=
  match jsParseInt idParam with
  | none => Except.error (HandlerErr.http 400 "Invalid state ID" true)
  | some i =>
      if i = 0 then Except.error (HandlerErr.http 400 "Invalid state ID" true)
      else
        match findUnique db i with
        | none => Except.error (HandlerErr.http 404 "State not found" true)
        | some _ =>
            match prismaDelete db i with
            | Except.error e => Except.error e
            | Except.ok db2 => Except.ok ("State deleted successfully", db2)

/-- `DELETE /states/:id` through `asyncHandler`; an error leaves the table
untouched. -/
def deleteStateApi (db : Db) (idParam : String) : ApiResult String × Db :=
  match deleteState db idParam with
  | Except.ok (msg, db2) => (ApiResult.ok 200 msg, db2)
  | Except.error e => (ApiResult.err (handleError e).1 (handleError e).2, db)

/-- `err.status === 400 && err.expose`: the first branch of `asyncHandler`. -/
def isExposed400 : HandlerErr → Bool
  | HandlerErr.http status _ expose => status == 400 && expose
  | _ => false

/-- `err.name === "PrismaClientValidationError"`. -/
def isPrismaValidationErr : HandlerErr → Bool
  | HandlerErr.prismaValidation _ => true
  | _ => false

/-- A known request error with `code === "P2002"` and truthy `meta.target`. -/
def isP2002WithTarget : HandlerErr → Bool
  | HandlerErr.prismaKnown code (some t) => code == "P2002" && targetTruthy t
  | _ => false

/-! ### Concrete fixtures used by closed theorems and witnesses -/

/-- An empty table. -/
def dbEmpty : Db := { rows := [], nextId := 1 }

/-- A sample record. -/
def recGoa : StateRec := { id := 1, stateName := "Goa", createdAt := 5, updatedAt := 5 }

/-- A table holding just `recGoa`. -/
def dbOne : Db := { rows := [recGoa], nextId := 2 }

/-- `dbOne` after its record is deleted (the counter does not rewind). -/
def dbOneGone : Db := { rows := [], nextId := 2 }

/-- The record created by inserting "Goa" into `dbEmpty` at time 7. -/
def recGoa7 : StateRec := { id := 1, stateName := "Goa", createdAt := 7, updatedAt := 7 }

/-- `dbEmpty` after that insertion. -/
def dbGoa7 : Db := { rows := [recGoa7], nextId := 2 }

/-- A list query with page 1 and limit 2. -/
def qPage12 : ListQuery :=
  { page := some "1", limit := some "2", search := none, sortBy := none, sortOrder := none }

/-- A list query whose page and limit are not numeric. -/
def qMalformed : ListQuery :=
  { page := some "abc", limit := some "xyz", search := none, sortBy := none,
    sortOrder := none }

/-- A list query with a numeric but negative limit. -/
def qNegLimit : ListQuery :=
  { page := none, limit := some "-5", search := none, sortBy := none, sortOrder := none }

/-- A list query whose sortBy names no column of the table. -/
def qBadSort : ListQuery :=
  { page := none, limit := none, search := none, sortBy := some "bogus",
    sortOrder := none }

/-! ### Helper lemmas -/

theorem intOrDefault_some_ne (n d : Int) (h : n ≠ 0) : intOrDefault (some n) d = n := by
  cases n with
  | ofNat m =>
      cases m with
      | zero => exact absurd rfl h
      | succ k => rfl
  | negSucc m => rfl

theorem effectiveLimit_parsed (q : ListQuery) (l : Int)
    (hl : jsParseIntOpt q.limit = some l) (h1 : 1 ≤ l) : effectiveLimit q = l := by
  unfold effectiveLimit
  rw [hl, intOrDefault_some_ne l 10 (by omega)]
  exact max_eq_right h1

/-- `Math.ceil(total / limit)` agrees with the rational ceiling for a positive
limit. -/
theorem jsCeilDiv_eq_ceil (t l : Nat) (hl : 1 ≤ l) :
    (jsCeilDiv t l : ℤ) = ⌈(t : ℚ) / (l : ℚ)⌉ := by
  have hl0 : (0 : ℚ) < (l : ℚ) := by exact_mod_cast hl
  have hdm : l * ((t + l - 1) / l) + (t + l - 1) % l = t + l - 1 :=
    Nat.div_add_mod _ _
  have hr : (t + l - 1) % l < l := Nat.mod_lt _ (by omega)
  have key : ∀ u r : Nat, l * u + r = t + l - 1 → r < l →
      t ≤ l * u ∧ l * u ≤ t + (l - 1) := by
    intro u r h1 h2
    constructor <;> omega
  obtain ⟨hA, hB⟩ := key _ _ hdm hr
  have hcast : ((l - 1 : Nat) : ℚ) = (l : ℚ) - 1 := by
    simpa using (Nat.cast_sub hl : ((l - 1 : Nat) : ℚ) = (l : ℚ) - ((1 : Nat) : ℚ))
  symm
  rw [Int.ceil_eq_iff]
  constructor
  · rw [lt_div_iff₀ hl0]
    have hBq : (l : ℚ) * (jsCeilDiv t l : ℚ) ≤ (t : ℚ) + ((l : ℚ) - 1) := by
      rw [← hcast]
      exact_mod_cast hB
    push_cast
    nlinarith [hBq]
  · rw [div_le_iff₀ hl0]
    have hAq : (t : ℚ) ≤ (l : ℚ) * (jsCeilDiv t l : ℚ) := by exact_mod_cast hA
    push_cast
    nlinarith [hAq]

/-- Every failure of the update schema is a raw `ZodError`. -/
theorem zodUpdate_error_shape (b : Body) (e : HandlerErr)
    (h : zodUpdate b = Except.error e) : ∃ issues, e = HandlerErr.zod issues := by
  cases b with
  | mk sn =>
      cases sn with
      | none =>
          dsimp only [zodUpdate] at h
          injection h with h2
          exact ⟨_, h2.symm⟩
      | some s =>
          dsimp only [zodUpdate] at h
          by_cases h1 : s.length < 1
          · rw [if_pos h1] at h
            injection h with h2
            exact ⟨_, h2.symm⟩
          · rw [if_neg h1] at h
            by_cases h2 : 255 < s.length
            · rw [if_pos h2] at h
              injection h with h3
              exact ⟨_, h3.symm⟩
            · rw [if_neg h2] at h
              cases h

/-! ### Claims -/

/-- C1 (counterexample): the claim says an update on a nonexistent id never
yields a validation error; but on the empty table, id "999999" with an empty
body yields the refinement's validation error, not the not-found error,
because the body is validated before the existence lookup. -/
theorem updateState_missing_id_cex :
    updateState dbEmpty "999999" { stateName := none } 0 =
      Except.error (HandlerErr.zod [("", "At least one field is required")]) ∧
    updateState dbEmpty "999999" { stateName := none } 0 ≠
      Except.error (HandlerErr.http 404 "State not found" true) := by
  exact ⟨by decide, by decide⟩

/-- C1 (amended): for an update whose id parses to a nonzero number matching
no record, a body that passes the update schema yields the not-found error,
while a body that fails the schema (for instance an empty body) yields that
validation error — validation runs before the existence lookup. -/
theorem updateState_missing_id (db : Db) (sid : String) (i : Int) (b : Body)
    (now : Nat) (hid : jsParseInt sid = some i) (hnz : i ≠ 0)
    (hmiss : findUnique db i = none) :
    (∀ vd, zodUpdate b = Except.ok vd →
      updateState db sid b now =
        Except.error (HandlerErr.http 404 "State not found" true)) ∧
    (∀ e, zodUpdate b = Except.error e →
      updateState db sid b now = Except.error e ∧
        ∃ issues, e = HandlerErr.zod issues) := by
  constructor
  · intro vd hvd
    simp only [updateState, hid, if_neg hnz, hvd, hmiss]
  · intro e he
    refine ⟨?_, zodUpdate_error_shape b e he⟩
    simp only [updateState, hid, if_neg hnz, he]

/-- C1 (witness): on the empty table, updating id "999999" with the valid
body carrying stateName "X" yields the not-found error. -/
theorem updateState_missing_id_witness :
    updateState dbEmpty "999999" { stateName := some "X" } 0 =
      Except.error (HandlerErr.http 404 "State not found" true) :=
  (updateState_missing_id dbEmpty "999999" 999999 { stateName := some "X" } 0
    (by decide) (by decide) (by decide)).1 (some "X") (by decide)

/-- C2: for numeric page and limit at least 1, the list response satisfies
totalPages = ceil(totalStates / limit), the returned page holds at most limit
records, and totalStates is the count of records matching the search filter,
a quantity independent of page and limit. -/
theorem getStates_pagination (db : Db) (q : ListQuery) (p l : Int)
    (_hp : jsParseIntOpt q.page = some p) (_hp1 : 1 ≤ p)
    (hl : jsParseIntOpt q.limit = some l) (hl1 : 1 ≤ l) :
    ((getStates db q).totalPages : ℤ) =
      ⌈((getStates db q).totalStates : ℚ) / (l : ℚ)⌉ ∧
    (getStates db q).states.length ≤ l.toNat ∧
    (getStates db q).totalStates = countWhere db (searchOf q) := by
  have hL : effectiveLimit q = l := effectiveLimit_parsed q l hl hl1
  have hln : 1 ≤ l.toNat := by omega
  have hcast : ((l.toNat : Nat) : ℚ) = (l : ℚ) := by
    have : ((l.toNat : ℤ)) = l := Int.toNat_of_nonneg (by omega)
    exact_mod_cast this
  refine ⟨?_, ?_, ?_⟩
  · have := jsCeilDiv_eq_ceil (countWhere db (searchOf q)) l.toNat hln
    simp only [getStates, hL]
    rw [this, hcast]
  · simp only [getStates, findMany, hL]
    exact List.length_take_le _ _
  · simp only [getStates]

/-- C2 (witness): the list response for page "1", limit "2" on the one-record
table satisfies the pagination equations. -/
theorem getStates_pagination_witness :
    ((getStates dbOne qPage12).totalPages : ℤ) =
      ⌈((getStates dbOne qPage12).totalStates : ℚ) / ((2 : Int) : ℚ)⌉ ∧
    (getStates dbOne qPage12).states.length ≤ (2 : Int).toNat ∧
    (getStates dbOne qPage12).totalStates = countWhere dbOne (searchOf qPage12) :=
  getStates_pagination dbOne qPage12 1 2 (by decide) (by decide) (by decide)
    (by decide)

/-- C3 (counterexample): a P2002 known request error whose `meta.target` is
the empty array carries no target column, yet it is not surfaced as a 500: the
empty JS array is truthy, indexing it yields `undefined`, and the response is
a 400 keyed by the string "undefined". -/
theorem handleError_empty_target_cex :
    handleError (HandlerErr.prismaKnown "P2002" (some (JsTarget.arr []))) =
      (400, ErrBody.unique "undefined"
        "A record with that undefined already exists.") ∧
    (handleError (HandlerErr.prismaKnown "P2002" (some (JsTarget.arr [])))).1 ≠
      500 := by
  exact ⟨by decide, by decide⟩

/-- C3 (amended): a P2002 known request error carrying a truthy target
answers 400 with the field taken from the target — the first column of an
array target (an empty array is truthy and gives field name "undefined"), or
a nonempty string target itself; every failure that is not an exposed 400,
not a store validation error, and not a P2002 with a truthy target — in
particular a P2002 whose target is absent or the falsy empty string — is
surfaced as 500 with only "Internal Server Error". -/
theorem handleError_classification (f : String) (fs : List String) (s : String)
    (e : HandlerErr) (hs : s ≠ "")
    (h1 : isExposed400 e = false) (h2 : isPrismaValidationErr e = false)
    (h3 : isP2002WithTarget e = false) :
    handleError (HandlerErr.prismaKnown "P2002" (some (JsTarget.arr (f :: fs)))) =
      (400, ErrBody.unique f ("A record with that " ++ f ++ " already exists.")) ∧
    handleError (HandlerErr.prismaKnown "P2002" (some (JsTarget.str s))) =
      (400, ErrBody.unique s ("A record with that " ++ s ++ " already exists.")) ∧
    handleError e = (500, ErrBody.message "Internal Server Error") := by
  refine ⟨by simp [handleError, targetField, targetTruthy],
    by simp [handleError, targetField, targetTruthy, hs], ?_⟩
  cases e with
  | http st m ex =>
      simp only [isExposed400, Bool.and_eq_false_iff] at h1
      simp only [handleError]
      rw [if_neg]
      intro hcontra
      rcases hcontra with ⟨hst, hex⟩
      rcases h1 with h1 | h1
      · exact absurd hst (by simpa using h1)
      · rw [hex] at h1
        cases h1
  | zod issues => rfl
  | prismaValidation m => simp [isPrismaValidationErr] at h2
  | prismaKnown c t =>
      cases t with
      | none => rfl
      | some tv =>
          simp only [isP2002WithTarget, Bool.and_eq_false_iff] at h3
          simp only [handleError]
          rw [if_neg]
          intro hcontra
          rcases hcontra with ⟨hc, htv⟩
          rcases h3 with h3 | h3
          · rw [hc] at h3
            simp at h3
          · rw [htv] at h3
            cases h3
  | other => rfl

/-- C3 (witness): the classification at concrete inputs — target column
"stateName", nonempty string target "email", and a P2002 whose target is the
falsy empty string, which matches no branch and is answered by the generic
500. -/
theorem handleError_classification_witness :
    handleError (HandlerErr.prismaKnown "P2002"
        (some (JsTarget.arr ["stateName"]))) =
      (400, ErrBody.unique "stateName"
        "A record with that stateName already exists.") ∧
    handleError (HandlerErr.prismaKnown "P2002" (some (JsTarget.str "email"))) =
      (400, ErrBody.unique "email"
        "A record with that email already exists.") ∧
    handleError (HandlerErr.prismaKnown "P2002" (some (JsTarget.str ""))) =
      (500, ErrBody.message "Internal Server Error") :=
  handleError_classification "stateName" [] "email"
    (HandlerErr.prismaKnown "P2002" (some (JsTarget.str ""))) (by decide)
    (by decide) (by decide) (by decide)

/-- C4: deleting the only record succeeds with 200 and the confirmation
message; on the second call the existence lookup fires first, so the handler
fails with the thrown not-found error (never the store's own P2025 failure)
and the table is untouched — but `asyncHandler` has no branch for a 404, so
the second call's HTTP response is the generic 500, not the 404 the claim
(and the route's own swagger annotations) promise. -/
theorem deleteState_twice :
    deleteStateApi dbOne "1" =
      (ApiResult.ok 200 "State deleted successfully", dbOneGone) ∧
    deleteState dbOneGone "1" =
      Except.error (HandlerErr.http 404 "State not found" true) ∧
    deleteStateApi dbOneGone "1" =
      (ApiResult.err 500 (ErrBody.message "Internal Server Error"), dbOneGone) := by
  exact ⟨by decide, by decide, by decide⟩

/-- C5: updating an existing record with a body carrying only a valid
stateName sends exactly that one field to the store; the stored and returned
record changes stateName and updatedAt only — id and createdAt are kept, and
rows with other ids are mapped to themselves. -/
theorem updateState_only_provided (db : Db) (sid : String) (i : Int)
    (v : String) (now : Nat) (old : StateRec)
    (hid : jsParseInt sid = some i) (hnz : i ≠ 0)
    (hv1 : 1 ≤ v.length) (hv2 : v.length ≤ 255)
    (hf : findUnique db i = some old) (ht : old.updatedAt ≠ now) :
    toDataObject (some v) = [("stateName", v)] ∧
    updateState db sid { stateName := some v } now =
      Except.ok ({ old with stateName := v, updatedAt := now },
        { db with rows := db.rows.map (fun x =>
            if x.id == i then { x with stateName := v, updatedAt := now }
            else x) }) ∧
    StateRec.createdAt { old with stateName := v, updatedAt := now } =
      old.createdAt ∧
    StateRec.id { old with stateName := v, updatedAt := now } = old.id ∧
    StateRec.updatedAt { old with stateName := v, updatedAt := now } ≠
      old.updatedAt := by
  have hz : zodUpdate { stateName := some v } = Except.ok (some v) := by
    dsimp only [zodUpdate]
    rw [if_neg (by omega), if_neg (by omega)]
  refine ⟨rfl, ?_, rfl, rfl, fun hcontra => ht hcontra.symm⟩
  simp only [updateState, hid, if_neg hnz, hz, hf, prismaUpdate, toDataObject]
  simp [List.lookup]

/-- C5 (witness): updating the one-record table's id "1" with stateName
"Gujarat" at time 9. -/
theorem updateState_only_provided_witness :
    toDataObject (some "Gujarat") = [("stateName", "Gujarat")] ∧
    updateState dbOne "1" { stateName := some "Gujarat" } 9 =
      Except.ok ({ recGoa with stateName := "Gujarat", updatedAt := 9 },
        { dbOne with rows := dbOne.rows.map (fun x =>
            if x.id == 1 then { x with stateName := "Gujarat", updatedAt := 9 }
            else x) }) ∧
    StateRec.createdAt { recGoa with stateName := "Gujarat", updatedAt := 9 } =
      recGoa.createdAt ∧
    StateRec.id { recGoa with stateName := "Gujarat", updatedAt := 9 } =
      recGoa.id ∧
    StateRec.updatedAt { recGoa with stateName := "Gujarat", updatedAt := 9 } ≠
      recGoa.updatedAt :=
  updateState_only_provided dbOne "1" 1 "Gujarat" 9 recGoa (by decide)
    (by decide) (by decide) (by decide) (by decide) (by decide)

/-- C6: the get-by-id endpoint answers 400 "Invalid state ID" on a
non-numeric and on a zero identifier, 200 with the record's selected columns
on a match — but on an accepted identifier matching no record the handler's
thrown 404 has no branch in `asyncHandler`, so the endpoint answers the
generic 500, not the 404 the claim (and the route's swagger annotation)
states. -/
theorem getState_responses :
    getStateApi dbOne "abc" = ApiResult.err 400 (ErrBody.message "Invalid state ID") ∧
    getStateApi dbOne "0" = ApiResult.err 400 (ErrBody.message "Invalid state ID") ∧
    getStateApi dbOne "1" = ApiResult.ok 200 recGoa ∧
    getState dbOne "2" = Except.error (HandlerErr.http 404 "State not found" true) ∧
    getStateApi dbOne "2" = ApiResult.err 500 (ErrBody.message "Internal Server Error") := by
  exact ⟨by decide, by decide, by decide, by decide, by decide⟩

/-- C7: creating with an empty stateName fails before the insert (the table
is unchanged) — but the raw ZodError has no `status`/`expose` and no
`asyncHandler` branch, so the response is the generic 500, not the structured
validation error the claim states; creating with a 1–255 character name
answers 201 with the created record, which is then retrievable by its id. -/
theorem createState_validation :
    createStateApi dbEmpty { stateName := some "" } 7 =
      (ApiResult.err 500 (ErrBody.message "Internal Server Error"), dbEmpty) ∧
    createState dbEmpty { stateName := some "" } 7 =
      Except.error (HandlerErr.zod [("stateName", "State name is required")]) ∧
    createStateApi dbEmpty { stateName := some "Goa" } 7 =
      (ApiResult.ok 201 recGoa7, dbGoa7) ∧
    getStateApi dbGoa7 "1" = ApiResult.ok 200 recGoa7 := by
  exact ⟨by decide, by decide, by decide, by decide⟩

/-- C8 (counterexample): the claim says every combination of query parameters
produces a 200; but a sortBy naming no column makes the store raise its
validation error, which `asyncHandler` renders as a 400 — so the list request
with sortBy "bogus" is not answered 200. -/
theorem getStates_bogus_sort_cex :
    getStatesApi dbOne qBadSort =
      ApiResult.err 400 (ErrBody.message prismaOrderByMsg) ∧
    getStatesApi dbOne qBadSort ≠ ApiResult.ok 200 (getStates dbOne qBadSort) := by
  exact ⟨by decide, by decide⟩

/-- C8 (amended): the handler itself rejects nothing — for every table and
every page, limit and search, provided the resolved sortBy names a column of
the table and the sort direction is asc or desc (both hold for the defaults),
the endpoint answers 200 with the computed page, and non-numeric page and
limit values are coerced to the defaults page 1 and limit 10; an unknown
sortBy or sort direction surfaces the store's validation error as a 400. -/
theorem getStates_never_fails (db : Db) (q q2 : ListQuery)
    (hsort : (knownColumn (mappedSortBy q) && validSortOrder (sortOrderOf q)) = true)
    (hp : jsParseIntOpt q2.page = none) (hl : jsParseIntOpt q2.limit = none) :
    getStatesApi db q = ApiResult.ok 200 (getStates db q) ∧
    effectivePage q2 = 1 ∧ effectiveLimit q2 = 10 ∧ (getStates db q2).page = 1 := by
  have hpage : effectivePage q2 = 1 := by
    simp [effectivePage, hp, intOrDefault]
  refine ⟨?_, hpage, ?_, ?_⟩
  · simp [getStatesApi, runHandler, getStatesHandler, prismaFindMany, hsort,
      getStates]
  · simp [effectiveLimit, hl, intOrDefault]
  · simp only [getStates]
    exact hpage

/-- C8 (witness): with page "abc" and limit "xyz" on the one-record table
(default sortBy and sortOrder) the endpoint answers 200, with page and limit
at their defaults. -/
theorem getStates_never_fails_witness :
    getStatesApi dbOne qMalformed = ApiResult.ok 200 (getStates dbOne qMalformed) ∧
    effectivePage qMalformed = 1 ∧ effectiveLimit qMalformed = 10 ∧
    (getStates dbOne qMalformed).page = 1 :=
  getStates_never_fails dbOne qMalformed qMalformed (by decide) (by decide)
    (by decide)

/-- C9: identifier parsing takes the numeric prefix — "12abc" parses to 12 and
the get handler treats the two spellings identically — and a negative
identifier passes the falsy-id check (only NaN and 0 are rejected with the
exposed 400), so on a table without that id the get, update (with a valid
body) and delete handlers all fail with the thrown not-found error, not with
the 400 invalid-id error. -/
theorem id_parsing_lenient (db : Db) (s : String) (n : Int)
    (h1 : jsParseInt s = some n) (h2 : n < 0) (h3 : findUnique db n = none) :
    jsParseInt "12abc" = some 12 ∧
    getState db "12abc" = getState db "12" ∧
    getState db s = Except.error (HandlerErr.http 404 "State not found" true) ∧
    updateState db s { stateName := some "X" } 0 =
      Except.error (HandlerErr.http 404 "State not found" true) ∧
    deleteState db s = Except.error (HandlerErr.http 404 "State not found" true) := by
  have hnz : n ≠ 0 := by omega
  have e1 : jsParseInt "12abc" = some 12 := by decide
  have e2 : jsParseInt "12" = some 12 := by decide
  have hz : zodUpdate { stateName := some "X" } = Except.ok (some "X") := by decide
  refine ⟨e1, ?_, ?_, ?_, ?_⟩
  · simp only [getState, e1, e2]
  · simp only [getState, h1, if_neg hnz, h3]
  · simp only [updateState, h1, if_neg hnz, hz, h3]
  · simp only [deleteState, h1, if_neg hnz, h3]

/-- C9 (witness): id "-5" against the empty table. -/
theorem id_parsing_lenient_witness :
    jsParseInt "12abc" = some 12 ∧
    getState dbEmpty "12abc" = getState dbEmpty "12" ∧
    getState dbEmpty "-5" =
      Except.error (HandlerErr.http 404 "State not found" true) ∧
    updateState dbEmpty "-5" { stateName := some "X" } 0 =
      Except.error (HandlerErr.http 404 "State not found" true) ∧
    deleteState dbEmpty "-5" =
      Except.error (HandlerErr.http 404 "State not found" true) :=
  id_parsing_lenient dbEmpty "-5" (-5) (by decide) (by decide) (by decide)

/-- C10: for every query the effective page and limit are clamped to at least
1 — in particular a numeric limit of -5 becomes 1, not the default 10 — so the
skip offset (page - 1) * limit is nonnegative and the totalPages divisor is
never zero. -/
theorem pagination_clamped (q q2 : ListQuery)
    (h : jsParseIntOpt q2.limit = some (-5)) :
    1 ≤ effectivePage q ∧ 1 ≤ effectiveLimit q ∧
    effectiveLimit q2 = 1 ∧ 0 ≤ skipOf q ∧ effectiveLimit q ≠ 0 := by
  have hp : 1 ≤ effectivePage q := le_max_left _ _
  have hl : 1 ≤ effectiveLimit q := le_max_left _ _
  refine ⟨hp, hl, ?_, ?_, by omega⟩
  · simp [effectiveLimit, h, intOrDefault]
  · unfold skipOf
    exact mul_nonneg (by omega) (by omega)

/-- C10 (witness): a query whose limit is the numeric string "-5". -/
theorem pagination_clamped_witness :
    1 ≤ effectivePage qPage12 ∧ 1 ≤ effectiveLimit qPage12 ∧
    effectiveLimit qNegLimit = 1 ∧ 0 ≤ skipOf qPage12 ∧
    effectiveLimit qPage12 ≠ 0 :=
  pagination_clamped qPage12 qNegLimit (by decide)

end StateApi

